import Mathlib

/-
Verification of the natural-language specification of the
`AIOHTTPWebsocketsTransport` class (src/gql/transport/aiohttp_websockets.py)
against a shallow Lean embedding of that source file.

The embedding models:
  - wire messages as a JSON-like inductive type (`Json`), a message being the
    dict passed to the parse methods (an association list of fields);
  - Python coercion semantics used by the source (`str(...)` on arbitrary
    values, `int(...)` on strings);
  - the mutable transport state as an explicit `TransportState` record
    threaded through the translated methods;
  - the exceptions raised by the source as an explicit error type
    (`TransportErr`), with fallible code returning values in `Except` /
    explicit outcome types.
-/

namespace GqlAioWs

/-- A JSON-like value as received by the transport after decoding a text
frame. `null` plays the role of Python `None` (either an explicit JSON null
or the `None` returned by `dict.get` for a missing key where the source uses
a default). -/
inductive Json where
  | null
  | bool (b : Bool)
  | int (n : Int)
  | str (s : String)
  | arr (elems : List Json)
  | obj (fields : List (String × Json))


/-- A wire message as handed to the parse methods: a Python dict, modelled
as an association list from field name to value. -/
abbrev Msg := List (String × Json)

mutual

/-- Python `repr` of a value, as used by the source in error message
formatting (f-strings interpolating dicts and payloads). -/
def pyRepr : Json → String
  | .null => "None"
  | .bool true => "True"
  | .bool false => "False"
  | .int n => toString n
  | .str s => "\x27" ++ s ++ "\x27"
  | .arr xs => "[" ++ pyReprElems xs ++ "]"
  | .obj fs => "\x7b" ++ pyReprFields fs ++ "\x7d"

/-- Comma-separated `repr` of list elements. -/
def pyReprElems : List Json → String
  | [] => ""
  | [x] => pyRepr x
  | x :: y :: xs => pyRepr x ++ ", " ++ pyReprElems (y :: xs)

/-- Comma-separated `repr` of dict fields. -/
def pyReprFields : List (String × Json) → String
  | [] => ""
  | [(k, v)] => "\x27" ++ k ++ "\x27: " ++ pyRepr v
  | (k, v) :: f :: fs =>
      "\x27" ++ k ++ "\x27: " ++ pyRepr v ++ ", " ++ pyReprFields (f :: fs)

end

/-- Python `str` of a value: strings pass through unchanged, every other
value renders as its `repr` (`str(None) = "None"`, `str(3) = "3"`, ...). -/
def pyStrJ : Json → String
  | .str s => s
  | j => pyRepr j

/-- Python `str` applied to the result of `dict.get`: a missing key gives
Python `None`, whose `str` is `"None"`. -/
def pyStr : Option Json → String
  | none => "None"
  | some j => pyStrJ j

/-- Whitespace stripped by Python `int(...)` on a string argument. -/
def isPySpace (c : Char) : Bool :=
  c = ' ' || c = '\t' || c = '\n' || c = '\r' || c = '\x0b' || c = '\x0c'

/-- Digit run accumulator for Python integer-literal parsing: a single
underscore is allowed between two digits, nothing else. -/
def pyDigitsGo (acc : Nat) : List Char → Option Nat
  | [] => some acc
  | '_' :: c :: cs =>
      if c.isDigit then pyDigitsGo (acc * 10 + (c.toNat - 48)) cs else none
  | ['_'] => none
  | c :: cs =>
      if c.isDigit then pyDigitsGo (acc * 10 + (c.toNat - 48)) cs else none

/-- A nonempty digit run (with Python underscore rules), or `none`. -/
def pyDigitsCore : List Char → Option Nat
  | [] => none
  | c :: cs => if c.isDigit then pyDigitsGo (c.toNat - 48) cs else none

/-- Python `int(s)` for a string `s`: optional surrounding whitespace, an
optional sign, then a digit run. Returns `none` where Python raises
`ValueError`. -/
def pyIntOfString (s : String) : Option Int :=
  let l := ((s.data.dropWhile isPySpace).reverse.dropWhile isPySpace).reverse
  match l with
  | '+' :: rest => (pyDigitsCore rest).map Int.ofNat
  | '-' :: rest => (pyDigitsCore rest).map (fun n => -(n : Int))
  | _ => (pyDigitsCore l).map Int.ofNat

/-- The exception taxonomy of the source (gql.transport.exceptions), plus
`indexError` for a plain Python `IndexError` escaping the parse code and
`timeoutError` for `asyncio.TimeoutError`. `queryError` carries the optional
`query_id` and `errors` arguments of `TransportQueryError`. -/
inductive TransportErr where
  | protocolError (msg : String)
  | queryError (msg : String) (queryId : Option Int) (errors : Option (List Json))
  | serverError (msg : String)
  | closed (msg : String)
  | alreadyConnected (msg : String)
  | indexError
  | timeoutError


/-- The `graphql.ExecutionResult` object constructed by the parse methods.
Each field holds `Json.null` where the Python object holds `None` (Python
`dict.get` conflates an absent key with an explicit null). -/
structure ExecutionResult where
  data : Json := .null
  errors : Json := .null
  extensions : Json := .null


/-- Modelled from the spec: `ListenerQueue` is imported from
`gql.transport.websockets_base`, whose source is not part of this
repository snapshot. Per the spec (Data Model and Listener Registry
sections) a listener is a per-operation delivery channel holding a
`send_stop` flag and an unbounded ordered queue of `(AnswerKind, Result?)`
pairs or a terminal error; delivery appends to the queue unless a terminal
error has been set, and `set_exception` records the terminal error. -/
structure ListenerQueue where
  send_stop : Bool
  queue : List (String × Option ExecutionResult) := []
  exn : Option TransportErr := none


/-- Modelled from the spec: enqueue one `(answer_type, result)` pair, a
no-op once a terminal error is set. -/
def ListenerQueue.put (l : ListenerQueue) (item : String × Option ExecutionResult) :
    ListenerQueue :=
  if l.exn.isSome then l else { l with queue := l.queue ++ [item] }

/-- Modelled from the spec: set the terminal error of the listener. -/
def ListenerQueue.setException (l : ListenerQueue) (e : TransportErr) : ListenerQueue :=
  { l with exn := some e }

/-- The mutable attributes of `AIOHTTPWebsocketsTransport` that the
translated methods read or write. Task handles and asyncio events are
modelled as booleans (`true` = handle present / event set); the websocket
is a boolean (`true` = connection object present); `sent` is the ordered
trace of messages passed to `_send`. -/
structure TransportState where
  subprotocol : String
  listeners : List (Int × ListenerQueue) := []
  checkKeepAliveTask : Bool := false
  nextKeepAlive : Bool := true
  payloads : Msg := []
  pingReceived : Bool := false
  pongReceived : Bool := false
  websocket : Bool := true
  closeTask : Bool := false
  closeException : Option TransportErr := none
  waitClosed : Bool := false
  noMoreListeners : Bool := true
  sent : List Json := []
  answerPings : Bool := true


/-- The `GRAPHQLWS_SUBPROTOCOL` class attribute. -/
def GRAPHQLWS_SUBPROTOCOL : String := "graphql-transport-ws"

/-- The `APOLLO_SUBPROTOCOL` class attribute. -/
def APOLLO_SUBPROTOCOL : String := "graphql-ws"

/-- Line 225-226 of the source: after a successful parse under the
graphql-ws protocol, signal the keep-alive event if the liveness watchdog
task exists. -/
def setKeepAlive (s : TransportState) : TransportState :=
  if s.checkKeepAliveTask then { s with nextKeepAlive := true } else s

/-- The `TransportProtocolError` raised by both parse methods when a
`ValueError` is caught. -/
def protoFail (answer : Msg) : TransportErr :=
  .protocolError ("Server did not return a GraphQL result: " ++ pyRepr (.obj answer))

/-- Dict update `self.payloads[answer_type] = v`. -/
def dictSet (d : Msg) (k : String) (v : Json) : Msg :=
  (k, v) :: d.filter (fun p => p.1 ≠ k)

/-- Translation of `_parse_answer_graphqlws`. Returns the updated transport
state together with either the `(answer_type, answer_id, execution_result)`
triple or the exception the method raises. -/
def parse_answer_graphqlws (s : TransportState) (answer : Msg) :
    TransportState × Except TransportErr (String × Option Int × Option ExecutionResult) :=
  let answer_type := pyStr (List.lookup "type" answer)
  if answer_type = "next" ∨ answer_type = "error" ∨ answer_type = "complete" then
    match pyIntOfString (pyStr (List.lookup "id" answer)) with
    | none => (s, .error (protoFail answer))
    | some answer_id =>
      if answer_type = "next" then
        match List.lookup "payload" answer with
        | some (.obj payload) =>
          if (List.lookup "errors" payload).isNone ∧ (List.lookup "data" payload).isNone then
            (s, .error (protoFail answer))
          else
            (setKeepAlive s, .ok ("data", some answer_id,
              some { errors := (List.lookup "errors" payload).getD .null,
                     data := (List.lookup "data" payload).getD .null,
                     extensions := (List.lookup "extensions" payload).getD .null }))
        | _ => (s, .error (protoFail answer))
      else if answer_type = "error" then
        match List.lookup "payload" answer with
        | some (.arr (e0 :: es)) =>
            (s, .error (.queryError (pyStrJ e0) (some answer_id) (some (e0 :: es))))
        | some (.arr []) => (s, .error .indexError)
        | _ => (s, .error (protoFail answer))
      else
        (setKeepAlive s, .ok ("complete", some answer_id, none))
  else if answer_type = "ping" ∨ answer_type = "pong" ∨ answer_type = "connection_ack" then
    let s := { s with
      payloads := dictSet s.payloads answer_type
        ((List.lookup "payload" answer).getD .null) }
    (setKeepAlive s, .ok (answer_type, none, none))
  else
    (s, .error (protoFail answer))

/-- Translation of `_parse_answer_apollo`. -/
def parse_answer_apollo (s : TransportState) (answer : Msg) :
    TransportState × Except TransportErr (String × Option Int × Option ExecutionResult) :=
  let answer_type := pyStr (List.lookup "type" answer)
  if answer_type = "data" ∨ answer_type = "error" ∨ answer_type = "complete" then
    match pyIntOfString (pyStr (List.lookup "id" answer)) with
    | none => (s, .error (protoFail answer))
    | some answer_id =>
      if answer_type = "data" ∨ answer_type = "error" then
        match List.lookup "payload" answer with
        | some (.obj payload) =>
          if answer_type = "data" then
            if (List.lookup "errors" payload).isNone ∧ (List.lookup "data" payload).isNone then
              (s, .error (protoFail answer))
            else
              (s, .ok ("data", some answer_id,
                some { errors := (List.lookup "errors" payload).getD .null,
                       data := (List.lookup "data" payload).getD .null,
                       extensions := (List.lookup "extensions" payload).getD .null }))
          else
            (s, .error (.queryError (pyStrJ (.obj payload)) (some answer_id)
              (some [.obj payload])))
        | _ => (s, .error (protoFail answer))
      else
        (s, .ok ("complete", some answer_id, none))
  else if answer_type = "ka" then
    (setKeepAlive s, .ok ("ka", none, none))
  else if answer_type = "connection_ack" then
    (s, .ok ("connection_ack", none, none))
  else if answer_type = "connection_error" then
    (s, .error (.serverError ("Server error: \x27" ++
      pyRepr ((List.lookup "payload" answer).getD .null) ++ "\x27")))
  else
    (s, .error (protoFail answer))

/-- Translation of `_parse_answer`: dispatch on the detected subprotocol. -/
def parse_answer (s : TransportState) (answer : Msg) :
    TransportState × Except TransportErr (String × Option Int × Option ExecutionResult) :=
  if s.subprotocol = GRAPHQLWS_SUBPROTOCOL then parse_answer_graphqlws s answer
  else parse_answer_apollo s answer

/-- Translation of `_send` (success path): the message is serialized onto
the websocket; the model records it in the ordered `sent` trace. -/
def send (s : TransportState) (message : Json) : TransportState :=
  { s with sent := s.sent ++ [message] }

/-- Translation of `send_ping`: build the `ping` message, with the payload
field only when a payload argument was given, and send it. -/
def send_ping (s : TransportState) (payload : Option Json) : TransportState :=
  match payload with
  | none => send s (.obj [("type", .str "ping")])
  | some p => send s (.obj [("type", .str "ping"), ("payload", p)])

/-- Translation of `_stop_listener`: in this source file the hook is a
plain `pass` — it changes nothing and sends nothing. -/
def stop_listener (s : TransportState) (_query_id : Int) : TransportState :=
  s

/-- Translation of `_connection_terminate`: a `pass` hook. -/
def connection_terminate (s : TransportState) : TransportState :=
  s

/-- Replace the listener registered under `query_id`, if present. -/
def updateListener (s : TransportState) (query_id : Int)
    (f : ListenerQueue → ListenerQueue) : TransportState :=
  { s with listeners :=
      s.listeners.map (fun p => if p.1 = query_id then (p.1, f p.2) else p) }

/-- Translation of `_remove_listener`: delete the entry and signal the
no-more-listeners event when the registry becomes empty. -/
def remove_listener (s : TransportState) (query_id : Int) : TransportState :=
  let ls := s.listeners.filter (fun p => p.1 ≠ query_id)
  { s with listeners := ls,
           noMoreListeners := if ls.length = 0 then true else s.noMoreListeners }

/-- Translation of the `except (asyncio.CancelledError, GeneratorExit)` /
`finally` blocks of `subscribe` (lines 891-899): the cleanup run when the
consumer cancels the generator early. If the `send_stop` flag of the listener is
still true, call `_stop_listener` and clear the flag; in every case remove
the listener. -/
def subscribe_cancel (s : TransportState) (query_id : Int) : TransportState :=
  let s :=
    match List.lookup query_id s.listeners with
    | some l =>
        if l.send_stop then
          updateListener (stop_listener s query_id) query_id
            (fun l => { l with send_stop := false })
        else s
    | none => s
  remove_listener s query_id

/-- Translation of `_handle_answer`: put the answer in the queue of the
listener registered under the answer id; silently do nothing when the id is
`None` or no listener is registered for it. -/
def handle_answer (s : TransportState) (answer_type : String)
    (answer_id : Option Int) (execution_result : Option ExecutionResult) :
    TransportState :=
  match answer_id with
  | none => s
  | some i =>
    match List.lookup i s.listeners with
    | none => s
    | some _ => updateListener s i (fun l => l.put (answer_type, execution_result))

/-- Translation of the first phase of `_clean_close`: for every registered
listener whose `send_stop` flag is true, call `_stop_listener` and clear the
flag. -/
def clean_close_stops (s : TransportState) : TransportState :=
  s.listeners.foldl
    (fun acc p =>
      if p.2.send_stop then
        updateListener (stop_listener acc p.1) p.1
          (fun l => { l with send_stop := false })
      else acc)
    s

/-- Translation of `_clean_close`: send stop notifications for every
listener still requiring one, wait (bounded by `close_timeout`, a pure wait
with no state effect beyond the possible timeout being logged) for the
registry to drain, then call the `_connection_terminate` hook. -/
def clean_close (s : TransportState) : TransportState :=
  connection_terminate (clean_close_stops s)

/-- Translation of `_close_coro` run to completion: cancel and await the
liveness watchdog, record the close exception, run `_clean_close` when
requested, set the terminal exception on every remaining listener, close
the websocket, and in the `finally` block clear the connection reference and
the task handles and signal the closed event. -/
def close_coro (s : TransportState) (e : TransportErr) (clean_close_flag : Bool) :
    TransportState :=
  let s := { s with checkKeepAliveTask := false }
  let s := { s with closeException := some e }
  let s := if clean_close_flag then clean_close s else s
  let s := { s with listeners :=
      (s.listeners.map (fun (p : Int × ListenerQueue) => (p.1, p.2.setException e))) }
  { s with websocket := false, closeTask := false, checkKeepAliveTask := false,
           waitClosed := true }

/-- Translation of `_fail`: a no-op (beyond logging) when a close task is
already running or the websocket is already gone; otherwise start the close
coroutine (run synchronously to completion in this sequential model). -/
def fail (s : TransportState) (e : TransportErr) (clean_close_flag : Bool) :
    TransportState :=
  if s.closeTask then s
  else if s.websocket = false then s
  else close_coro { s with closeTask := true } e clean_close_flag

/-- Translation of `close`: `_fail` with a `TransportClosed` exception and
`clean_close=True`, followed by `wait_closed` (a pure wait on the
`_wait_closed` event, with no state effect). -/
def close_user (s : TransportState) : TransportState :=
  fail s (.closed "Websocket GraphQL transport closed by user") true

/-- The `TransportServerError` raised on a keep-alive timeout (lines
536-542 of the source, with Python adjacent-string concatenation). -/
def keepAliveTimeoutError : TransportErr :=
  .serverError ("No keep-alive message has been received within " ++
    "the expected interval (\x27keep_alive_timeout\x27 parameter)")

/-- Translation of the `asyncio.TimeoutError` handler of
`_check_ws_liveness`: when no keep-alive message arrived within
`keep_alive_timeout`, fail non-cleanly with a descriptive
`TransportServerError` unless a close is already in progress. -/
def check_ws_liveness_timeout (s : TransportState) : TransportState :=
  if s.closeTask then s
  else fail s keepAliveTimeoutError false

/-- Translation of the `asyncio.TimeoutError` handler of `_send_ping_coro`:
when no pong arrived within `pong_timeout`, fail non-cleanly unless a close
is already in progress. The message interpolates `repr(self.pong_timeout)`. -/
def send_ping_timeout (s : TransportState) (pong_timeout_repr : String) :
    TransportState :=
  if s.closeTask then s
  else fail s (.serverError ("No pong received after " ++ pong_timeout_repr ++
    " seconds")) false

/-- One iteration of the loop of `_send_ping_coro`, after the
`ping_interval` sleep: send a ping, then wait for the `pong_received` event
(bounded by `pong_timeout`). `pong_set_in_time` says whether the event is or
becomes set within the bound; on success the event is cleared and the loop
continues, on timeout the `TimeoutError` handler runs and the coroutine
exits. -/
def send_ping_iter (s : TransportState) (pong_set_in_time : Bool)
    (pong_timeout_repr : String) : TransportState × Bool :=
  let s := send_ping s none
  if pong_set_in_time then ({ s with pongReceived := false }, true)
  else (send_ping_timeout s pong_timeout_repr, false)

/-- The `pong_timeout` attribute as assigned by `__init__` (lines 133-137):
only assigned when `ping_interval` is given; defaults to half the ping
interval when no explicit `pong_timeout` is given. -/
def init_pong_timeout (ping_interval : Option ℚ) (pong_timeout : Option ℚ) :
    Option ℚ :=
  match ping_interval with
  | none => none
  | some pi₀ =>
    match pong_timeout with
    | none => some (pi₀ / 2)
    | some pt => some pt

/-- Outcome of `_wait_ack` over a finite prefix of the inbound messages:
the ack was observed, an exception was raised, or the coroutine is still
waiting (all supplied messages consumed without an ack). -/
inductive WaitAckOutcome where
  | acked (s : TransportState)
  | raised (s : TransportState) (e : TransportErr)
  | pending (s : TransportState)

/-- Translation of `_wait_ack`: repeatedly receive and parse one message;
return on `connection_ack`; raise `TransportProtocolError` on any parsed
answer type other than `ka`; propagate exceptions raised by the parser. -/
def wait_ack (s : TransportState) : List Msg → WaitAckOutcome
  | [] => .pending s
  | m :: rest =>
    match parse_answer s m with
    | (s', .ok (answer_type, _, _)) =>
        if answer_type = "connection_ack" then .acked s'
        else if answer_type = "ka" then wait_ack s' rest
        else .raised s'
          (.protocolError "Websocket server did not return a connection ack")
    | (s', .error e) => .raised s' e

/-- Translation of the initialization step of `connect` (lines 659-668):
send the `connection_init` message, wait for the ack bounded by
`ack_timeout` (exhausting `msgs` without an ack models the timeout), and on
a `TransportProtocolError` or `asyncio.TimeoutError` run the non-clean
failure and re-raise to the caller; other exceptions are re-raised without
the failure step. Returns the final state and what `connect` raises. -/
def connect_init (s : TransportState) (init_payload : Json) (msgs : List Msg) :
    TransportState × Except TransportErr Unit :=
  let s := send s (.obj [("type", .str "connection_init"), ("payload", init_payload)])
  match wait_ack s msgs with
  | .acked s' => (s', .ok ())
  | .pending s' => (fail s' .timeoutError false, .error .timeoutError)
  | .raised s' e =>
    match e with
    | .protocolError m => (fail s' (.protocolError m) false, .error (.protocolError m))
    | _ => (s', .error e)

/-- What one iteration of `_receive_data_loop` does after the message has
been received: `next` (continue the loop), `exit` (break out of the loop
normally), or `crash e` (an exception not caught by any handler of the loop
kills the task). -/
inductive LoopAction where
  | next
  | exit
  | crash (e : TransportErr)

/-- Translation of one iteration of `_receive_data_loop` on a successfully
received message: parse it; on `TransportQueryError` set the exception on
the listener of that query id only (the `assert` on the id crashes when the
id is `None`) and continue; on `TransportServerError` or
`TransportProtocolError` fail non-cleanly and break; on a successful parse
deliver the answer and continue; any other exception escapes the loop. -/
def receive_step (s : TransportState) (m : Msg) : TransportState × LoopAction :=
  match parse_answer s m with
  | (s', .ok (answer_type, answer_id, execution_result)) =>
      (handle_answer s' answer_type answer_id execution_result, .next)
  | (s', .error e) =>
    match e with
    | .queryError msg (some qid) errs =>
        (match List.lookup qid s'.listeners with
         | none => s'
         | some _ =>
             updateListener s' qid
               (fun l => l.setException (.queryError msg (some qid) errs)),
         .next)
    | .queryError msg none errs => (s', .crash (.queryError msg none errs))
    | .serverError msg => (fail s' (.serverError msg) false, .exit)
    | .protocolError msg => (fail s' (.protocolError msg) false, .exit)
    | e => (s', .crash e)

/-- One item a subscriber pulls from its listener queue: either a
`(answer_type, execution_result)` pair delivered by the receive loop, or a
terminal exception set on the queue. -/
inductive QueueItem where
  | ans (answer_type : String) (execution_result : Option ExecutionResult)
  | exn (e : TransportErr)

/-- How a run of the `subscribe` pull loop ends: a `complete` answer (normal
exit), a terminal exception (re-raised to the consumer), or still waiting
on the queue. -/
inductive SubOutcome where
  | completed
  | errored (e : TransportErr)
  | waiting

/-- Translation of the pull loop of `subscribe` over the sequence of items
its listener queue will deliver: yield the execution result whenever one is
present, exit normally on a `complete` answer, re-raise a terminal
exception. Returns the yielded results in order together with how the loop
ended. -/
def subscribe_yields : List QueueItem → List ExecutionResult × SubOutcome
  | [] => ([], .waiting)
  | .exn e :: _ => ([], .errored e)
  | .ans answer_type execution_result :: rest =>
    match execution_result with
    | some r =>
        match subscribe_yields rest with
        | (ys, outcome) => (r :: ys, outcome)
    | none =>
        if answer_type = "complete" then ([], .completed)
        else subscribe_yields rest

/-- The observable outcome of `execute`. -/
inductive ExecOutcome where
  | ok (r : ExecutionResult)
  | err (e : TransportErr)
  | waiting

/-- Translation of the `async for` loop of `execute`: pull items exactly as
the `subscribe` generator does, but stop at the first yielded result (the
generator is then closed). A generator exhausted by `complete` without any
yield leaves `first_result` as `None`. -/
def execute_loop : List QueueItem → ExecOutcome
  | [] => .waiting
  | .exn e :: _ => .err e
  | .ans answer_type execution_result :: rest =>
    match execution_result with
    | some r => .ok r
    | none =>
        if answer_type = "complete" then
          .err (.queryError "Query completed without any answer received from the server"
            none none)
        else execute_loop rest

/-- A concrete post-connect state under the graphql-ws subprotocol with one
live subscription (operation id 1, `send_stop` true), nothing sent yet, and
`answer_pings` left at its default `True`. -/
def sampleStateB : TransportState :=
  { subprotocol := GRAPHQLWS_SUBPROTOCOL,
    listeners := [(1, { send_stop := true })] }

/-- A concrete inbound `ping` message (graphql-ws protocol). -/
def pingMsgB : Msg := [("type", Json.str "ping")]

/-- A concrete inbound `pong` message (graphql-ws protocol). -/
def pongMsgB : Msg := [("type", Json.str "pong")]

/-- A concrete inbound `error` message for operation id 1 whose payload is
the empty list (a list-shaped payload). -/
def emptyErrListMsg : Msg :=
  [("type", Json.str "error"), ("id", Json.str "1"), ("payload", Json.arr [])]

/-- C1: the claim says that on early cancellation with `sendStop` true (and
likewise for each such listener during a clean close) the termination
message of the dialect is sent to the peer before the listener is deregistered
and the flag is cleared. In this source file `_stop_listener` is a `pass`
stub, so the cancellation path and the clean-close path clear the flag and
deregister but send nothing: evaluating both paths on a graphql-ws state
with one `sendStop = true` listener leaves the sent-message trace empty. -/
theorem C1_cancel_sends_no_termination_message :
    (subscribe_cancel sampleStateB 1).sent = [] ∧
    (subscribe_cancel sampleStateB 1).listeners = [] ∧
    (clean_close sampleStateB).sent = [] ∧
    List.lookup 1 (clean_close sampleStateB).listeners = some { send_stop := false } := by
  refine ⟨rfl, rfl, rfl, rfl⟩

/-- C2: the claim says an inbound graphql-ws `ping` sets the ping-received
signal and (with `answer_pings` true) sends a `pong` reply. Evaluating
`_parse_answer_graphqlws` on a `ping` message in a state with
`answer_pings = true` shows the parse succeeds but the `ping_received`
event stays unset and nothing is sent. -/
theorem C2_ping_not_signalled_and_no_pong_sent :
    (parse_answer_graphqlws sampleStateB pingMsgB).2 = .ok ("ping", none, none) ∧
    (parse_answer_graphqlws sampleStateB pingMsgB).1.pingReceived = false ∧
    (parse_answer_graphqlws sampleStateB pingMsgB).1.sent = [] ∧
    sampleStateB.answerPings = true := by
  refine ⟨rfl, rfl, rfl, rfl⟩

/-- C3: the claim describes the outbound ping loop, including that the pong
signal it waits on is set when a `pong` message is received from the peer.
Evaluating `_parse_answer_graphqlws` on a `pong` message shows the parse
succeeds but leaves `pong_received` unset, so no inbound pong can ever
satisfy the wait of the sender loop; the default `pong_timeout = ping_interval / 2`
part of the claim does hold of `__init__`. -/
theorem C3_pong_not_signalled :
    (parse_answer_graphqlws sampleStateB pongMsgB).2 = .ok ("pong", none, none) ∧
    (parse_answer_graphqlws sampleStateB pongMsgB).1.pongReceived = false ∧
    init_pong_timeout (some 10) none = some 5 ∧
    init_pong_timeout (some 10) (some 3) = some 3 := by
  refine ⟨rfl, rfl, by norm_num [init_pong_timeout], rfl⟩

/-- C7 counterexample: the claim says any list-shaped `error` payload for
operation id `k` is surfaced as a `QueryError` delivered to the listener of `k`
and the receive loop continues. For the empty list the source evaluates
`payload[0]`, raising an `IndexError` that no handler of the receive loop
catches: the parse does not produce a `QueryError`, listener 1 receives
nothing, and the loop crashes instead of continuing. -/
theorem C7_empty_error_list_crashes_loop :
    (parse_answer_graphqlws sampleStateB emptyErrListMsg).2 =
      .error TransportErr.indexError ∧
    (receive_step sampleStateB emptyErrListMsg).2 =
      LoopAction.crash TransportErr.indexError ∧
    List.lookup 1 (receive_step sampleStateB emptyErrListMsg).1.listeners =
      some { send_stop := true } := by
  refine ⟨rfl, rfl, rfl⟩

/-- Whether a parse result is a raised `TransportProtocolError`. -/
def isProtocolError {α : Type} : Except TransportErr α → Bool
  | .error (.protocolError _) => true
  | _ => false

/-- The answer types the graphql-ws parser recognizes. -/
def graphqlwsTypes : List String :=
  ["next", "error", "complete", "ping", "pong", "connection_ack"]

/-- The answer types the apollo parser recognizes. -/
def apolloTypes : List String :=
  ["data", "error", "complete", "ka", "connection_ack", "connection_error"]

/-- C6: for every incoming message of type `data`/`next`/`error`, under
either dialect, an absent or non-integer `id` field makes the parse raise a
`TransportProtocolError`; and a message whose type is outside the
recognized set of the parser of the active dialect makes that parse raise a
`TransportProtocolError`. -/
theorem C6_bad_id_or_unknown_type_is_protocol_error (s : TransportState) (m : Msg)
    (t : String) (ht : pyStr (List.lookup "type" m) = t) :
    ((t = "data" ∨ t = "next" ∨ t = "error") →
      pyIntOfString (pyStr (List.lookup "id" m)) = none →
      isProtocolError (parse_answer_graphqlws s m).2 = true ∧
      isProtocolError (parse_answer_apollo s m).2 = true) ∧
    (t ∉ graphqlwsTypes → isProtocolError (parse_answer_graphqlws s m).2 = true) ∧
    (t ∉ apolloTypes → isProtocolError (parse_answer_apollo s m).2 = true) := by
  refine ⟨?_, ?_, ?_⟩
  · rintro (rfl | rfl | rfl) hid <;>
      exact ⟨by simp [parse_answer_graphqlws, ht, hid, isProtocolError, protoFail],
             by simp [parse_answer_apollo, ht, hid, isProtocolError, protoFail]⟩
  · intro h
    simp only [graphqlwsTypes, List.mem_cons, List.not_mem_nil, or_false, not_or] at h
    obtain ⟨h1, h2, h3, h4, h5, h6⟩ := h
    simp [parse_answer_graphqlws, ht, h1, h2, h3, h4, h5, h6, isProtocolError, protoFail]
  · intro h
    simp only [apolloTypes, List.mem_cons, List.not_mem_nil, or_false, not_or] at h
    obtain ⟨h1, h2, h3, h4, h5, h6⟩ := h
    simp [parse_answer_apollo, ht, h1, h2, h3, h4, h5, h6, isProtocolError, protoFail]

/-- Witness for C6 at concrete inputs: a `next` message with no `id` field
is rejected by the graphql-ws parser, and an unrecognized `subscribe` type
is rejected as well. -/
theorem C6_witness :
    isProtocolError (parse_answer_graphqlws sampleStateB [("type", Json.str "next")]).2 =
      true ∧
    isProtocolError (parse_answer_graphqlws sampleStateB [("type", Json.str "subscribe")]).2 =
      true := by
  have h1 := C6_bad_id_or_unknown_type_is_protocol_error sampleStateB
    [("type", Json.str "next")] "next" rfl
  have h2 := C6_bad_id_or_unknown_type_is_protocol_error sampleStateB
    [("type", Json.str "subscribe")] "subscribe" rfl
  exact ⟨(h1.1 (Or.inr (Or.inl rfl)) rfl).1, h2.2.1 (by decide)⟩

/-- C10: when the inbound liveness watchdog task exists, every message the
graphql-ws parser accepts (data, complete, connection_ack, ping, pong)
signals the keep-alive event, while the apollo parser signals it exactly on
`ka` messages, leaving it unchanged on every other accepted message. -/
theorem C10_keepalive_signal_on_parse (s : TransportState) (m : Msg)
    (hka : s.checkKeepAliveTask = true) :
    (∀ r s', parse_answer_graphqlws s m = (s', .ok r) → s'.nextKeepAlive = true) ∧
    (∀ r s', parse_answer_apollo s m = (s', .ok r) →
      (r.1 = "ka" → s'.nextKeepAlive = true) ∧
      (r.1 ≠ "ka" → s'.nextKeepAlive = s.nextKeepAlive)) := by
  constructor
  · intro r s' h
    simp only [parse_answer_graphqlws] at h
    iterate 6 all_goals try split at h
    all_goals simp only [Prod.mk.injEq, Except.ok.injEq] at h
    all_goals
      first
      | (obtain ⟨h1, h2⟩ := h
         subst h1
         subst h2
         simp [setKeepAlive, hka])
      | simp at h
  · intro r s' h
    simp only [parse_answer_apollo] at h
    iterate 6 all_goals try split at h
    all_goals simp only [Prod.mk.injEq, Except.ok.injEq] at h
    all_goals
      first
      | (obtain ⟨h1, h2⟩ := h
         subst h1
         subst h2
         simp [setKeepAlive, hka])
      | simp at h

/-- Witness for C10: with the watchdog active and the keep-alive event
clear, an accepted graphql-ws `ping` sets it, while an accepted apollo
`complete` leaves it clear and an apollo `ka` sets it. -/
theorem C10_witness :
    (parse_answer_graphqlws
      { subprotocol := GRAPHQLWS_SUBPROTOCOL, checkKeepAliveTask := true,
        nextKeepAlive := false } pingMsgB).1.nextKeepAlive = true ∧
    (parse_answer_apollo
      { subprotocol := APOLLO_SUBPROTOCOL, checkKeepAliveTask := true,
        nextKeepAlive := false } [("type", Json.str "ka")]).1.nextKeepAlive = true := by
  constructor
  · exact (C10_keepalive_signal_on_parse
      { subprotocol := GRAPHQLWS_SUBPROTOCOL, checkKeepAliveTask := true,
        nextKeepAlive := false } pingMsgB rfl).1 ("ping", none, none) _ rfl
  · exact ((C10_keepalive_signal_on_parse
      { subprotocol := APOLLO_SUBPROTOCOL, checkKeepAliveTask := true,
        nextKeepAlive := false } [("type", Json.str "ka")] rfl).2 ("ka", none, none) _
        rfl).1 rfl

/-- C5: from a state where no close is in progress and the websocket is
live, the keep-alive timeout handler records the descriptive
`TransportServerError` as the sticky close exception, delivers it as the
terminal error of every live listener, clears the connection reference,
signals the closed event, and sends nothing to the peer (the failure is
non-clean). -/
theorem C5_keepalive_timeout_disconnects (s : TransportState)
    (hct : s.closeTask = false) (hws : s.websocket = true) :
    (check_ws_liveness_timeout s).closeException = some keepAliveTimeoutError ∧
    (∀ p ∈ (check_ws_liveness_timeout s).listeners,
      p.2.exn = some keepAliveTimeoutError) ∧
    (check_ws_liveness_timeout s).websocket = false ∧
    (check_ws_liveness_timeout s).waitClosed = true ∧
    (check_ws_liveness_timeout s).sent = s.sent := by
  have hbody : check_ws_liveness_timeout s =
      close_coro { s with closeTask := true } keepAliveTimeoutError false := by
    simp [check_ws_liveness_timeout, fail, hct, hws]
  rw [hbody]
  refine ⟨rfl, ?_, rfl, rfl, rfl⟩
  intro p hp
  simp only [close_coro, List.mem_map] at hp
  obtain ⟨q, _, hq⟩ := hp
  rw [← hq]
  rfl

/-- Witness for C5: the liveness timeout on the sample connected state
reaches the disconnected configuration with the closed event signaled and
the server error recorded. -/
theorem C5_witness :
    (check_ws_liveness_timeout sampleStateB).closeException =
      some keepAliveTimeoutError ∧
    (check_ws_liveness_timeout sampleStateB).websocket = false ∧
    (check_ws_liveness_timeout sampleStateB).waitClosed = true := by
  have h := C5_keepalive_timeout_disconnects sampleStateB rfl rfl
  exact ⟨h.1, h.2.2.1, h.2.2.2.1⟩

/-- C9: from a connected state with no close in progress (or from an
already-disconnected state with the closed event signaled), a user `close`
reaches a state with the connection reference cleared and the closed event
signaled, and a second `close` is a no-op: it produces exactly the same
state. The model of `close` is a total function, reflecting that `close`
raises nothing. -/
theorem C9_close_is_idempotent (s : TransportState)
    (h : (s.websocket = true ∧ s.closeTask = false) ∨
         (s.websocket = false ∧ s.waitClosed = true)) :
    close_user (close_user s) = close_user s ∧
    (close_user s).websocket = false ∧
    (close_user s).waitClosed = true := by
  have hgen : ∀ t : TransportState, t.closeTask = false → t.websocket = false →
      close_user t = t := by
    intro t h1 h2
    simp [close_user, fail, h1, h2]
  rcases h with ⟨hw, hc⟩ | ⟨hw, hc⟩
  · have hbody : close_user s =
        close_coro { s with closeTask := true }
          (.closed "Websocket GraphQL transport closed by user") true := by
      simp [close_user, fail, hc, hw]
    have h1 : (close_user s).closeTask = false := by rw [hbody]; rfl
    have h2 : (close_user s).websocket = false := by rw [hbody]; rfl
    have h3 : (close_user s).waitClosed = true := by rw [hbody]; rfl
    exact ⟨hgen _ h1 h2, h2, h3⟩
  · have hid : close_user s = s := by
      by_cases hct : s.closeTask
      · simp [close_user, fail, hct]
      · simp [close_user, fail, hct, hw]
    rw [hid, hid]
    exact ⟨rfl, hw, hc⟩

/-- Witness for C9: applying the theorem to the sample connected state. -/
theorem C9_witness :
    close_user (close_user sampleStateB) = close_user sampleStateB ∧
    (close_user sampleStateB).websocket = false ∧
    (close_user sampleStateB).waitClosed = true :=
  C9_close_is_idempotent sampleStateB (Or.inl ⟨rfl, rfl⟩)

/-- The `execute` loop agrees with taking the first yielded value of the
`subscribe` loop over the same queue items, with the no-answer
`TransportQueryError` when `subscribe` completes with zero yields. -/
theorem execute_loop_eq_first (items : List QueueItem) :
    execute_loop items =
      match subscribe_yields items with
      | (r :: _, _) => ExecOutcome.ok r
      | ([], .completed) => .err (.queryError
          "Query completed without any answer received from the server" none none)
      | ([], .errored e) => .err e
      | ([], .waiting) => .waiting := by
  induction items with
  | nil => rfl
  | cons x xs ih =>
    cases x with
    | exn e => rfl
    | ans t er =>
      cases er with
      | some v => rfl
      | none =>
        by_cases ht : t = "complete"
        · subst ht; rfl
        · simp only [execute_loop, subscribe_yields, if_neg ht]
          exact ih

/-- C8: `execute` returns exactly the first value yielded by the
`subscribe` generator it drives (registered with `send_stop = False`, so
closing it early sends nothing to the peer), and fails with the no-answer
`TransportQueryError` when the generator completes with zero yielded
values. -/
theorem C8_execute_is_first_yield_of_subscribe (items : List QueueItem) :
    (∀ r rest outcome, subscribe_yields items = (r :: rest, outcome) →
      execute_loop items = .ok r) ∧
    (subscribe_yields items = ([], .completed) →
      execute_loop items = .err (.queryError
        "Query completed without any answer received from the server" none none)) ∧
    (∀ s qid l, List.lookup qid s.listeners = some l → l.send_stop = false →
      (subscribe_cancel s qid).sent = s.sent) := by
  refine ⟨?_, ?_, ?_⟩
  · intro r rest outcome h
    rw [execute_loop_eq_first, h]
  · intro h
    rw [execute_loop_eq_first, h]
  · intro s qid l hl hss
    simp [subscribe_cancel, hl, hss, remove_listener]

/-- Witness for C8: a queue delivering one data answer then `complete`
makes `execute` return that answer; a queue delivering only `complete`
makes it fail with the no-answer `TransportQueryError`. -/
theorem C8_witness :
    execute_loop [QueueItem.ans "data" (some {}), QueueItem.ans "complete" none] =
      .ok {} ∧
    execute_loop [QueueItem.ans "complete" none] =
      .err (.queryError "Query completed without any answer received from the server"
        none none) := by
  have h1 := C8_execute_is_first_yield_of_subscribe
    [QueueItem.ans "data" (some {}), QueueItem.ans "complete" none]
  have h2 := C8_execute_is_first_yield_of_subscribe [QueueItem.ans "complete" none]
  exact ⟨h1.1 {} [] .completed rfl, h2.2.1 rfl⟩

/-- Association-list lookup at the head key. -/
theorem lookup_cons_self (a : Int) (b : ListenerQueue)
    (xs : List (Int × ListenerQueue)) :
    List.lookup a ((a, b) :: xs) = some b := by
  simp [List.lookup]

/-- Association-list lookup skips a head with a different key. -/
theorem lookup_cons_ne (j a : Int) (b : ListenerQueue)
    (xs : List (Int × ListenerQueue)) (h : j ≠ a) :
    List.lookup j ((a, b) :: xs) = List.lookup j xs := by
  simp [List.lookup, beq_false_of_ne h]

/-- Looking up a key other than the updated one in the listener-map update
is unchanged. -/
theorem lookup_map_if_ne (xs : List (Int × ListenerQueue)) (k j : Int)
    (f : ListenerQueue → ListenerQueue) (h : j ≠ k) :
    List.lookup j (xs.map (fun p => if p.1 = k then (p.1, f p.2) else p)) =
      List.lookup j xs := by
  induction xs with
  | nil => rfl
  | cons x xs ih =>
    obtain ⟨a, b⟩ := x
    dsimp only [List.map_cons]
    by_cases ha : a = k
    · rw [if_pos ha, lookup_cons_ne _ _ _ _ (fun hja => h (hja.trans ha)),
        lookup_cons_ne _ _ _ _ (fun hja => h (hja.trans ha))]
      exact ih
    · rw [if_neg ha]
      by_cases hja : j = a
      · subst hja
        rw [lookup_cons_self, lookup_cons_self]
      · rw [lookup_cons_ne _ _ _ _ hja, lookup_cons_ne _ _ _ _ hja]
        exact ih

/-- Looking up the updated key in the listener-map update gives the updated
listener. -/
theorem lookup_map_if_eq (xs : List (Int × ListenerQueue)) (k : Int)
    (f : ListenerQueue → ListenerQueue) (l : ListenerQueue)
    (h : List.lookup k xs = some l) :
    List.lookup k (xs.map (fun p => if p.1 = k then (p.1, f p.2) else p)) =
      some (f l) := by
  induction xs with
  | nil => simp [List.lookup] at h
  | cons x xs ih =>
    obtain ⟨a, b⟩ := x
    dsimp only [List.map_cons]
    by_cases ha : a = k
    · subst ha
      rw [if_pos rfl, lookup_cons_self]
      rw [lookup_cons_self] at h
      obtain rfl : b = l := by injection h
      rfl
    · rw [if_neg ha]
      have hka : k ≠ a := fun he => ha he.symm
      rw [lookup_cons_ne _ _ _ _ hka] at h
      rw [lookup_cons_ne _ _ _ _ hka]
      exact ih h

/-- C7 (amended to a nonempty error list): under the graphql-ws protocol,
an `error` message for operation id `k` whose payload is a nonempty list is
raised by the parser as a `TransportQueryError` carrying `k` and the raw
error list; the receive loop then sets that exception only on the
listener of `k` (every other listener is unchanged) and continues without tearing
the transport down. -/
theorem C7_error_list_is_operation_scoped (s : TransportState)
    (hsub : s.subprotocol = GRAPHQLWS_SUBPROTOCOL)
    (m : Msg) (ids : String) (k : Int) (e0 : Json) (es : List Json)
    (hm : m = [("type", Json.str "error"), ("id", Json.str ids),
      ("payload", Json.arr (e0 :: es))])
    (hk : pyIntOfString ids = some k) :
    (parse_answer s m).2 =
      .error (.queryError (pyStrJ e0) (some k) (some (e0 :: es))) ∧
    (receive_step s m).2 = LoopAction.next ∧
    (∀ j, j ≠ k → List.lookup j (receive_step s m).1.listeners =
      List.lookup j s.listeners) ∧
    (∀ l, List.lookup k s.listeners = some l →
      List.lookup k (receive_step s m).1.listeners =
        some (l.setException (.queryError (pyStrJ e0) (some k) (some (e0 :: es))))) := by
  subst hm
  have hparse : parse_answer s [("type", Json.str "error"), ("id", Json.str ids),
      ("payload", Json.arr (e0 :: es))] =
      (s, .error (.queryError (pyStrJ e0) (some k) (some (e0 :: es)))) := by
    simp [parse_answer, hsub, parse_answer_graphqlws, pyStr, pyStrJ, List.lookup, hk]
  refine ⟨by rw [hparse], ?_, ?_, ?_⟩
  · cases hL : List.lookup k s.listeners with
    | none => simp [receive_step, hparse, hL]
    | some l => simp [receive_step, hparse, hL]
  · intro j hj
    cases hL : List.lookup k s.listeners with
    | none => simp [receive_step, hparse, hL]
    | some l =>
      simp only [receive_step, hparse, hL, updateListener]
      exact lookup_map_if_ne s.listeners k j
        (fun x => x.setException (.queryError (pyStrJ e0) (some k) (some (e0 :: es)))) hj
  · intro l hL
    simp only [receive_step, hparse, hL, updateListener]
    exact lookup_map_if_eq s.listeners k
      (fun x => x.setException (.queryError (pyStrJ e0) (some k) (some (e0 :: es)))) l hL

/-- Witness for C7: a one-element error list for operation 1 reaches only
listener 1 as a `TransportQueryError` and the loop continues. -/
theorem C7_witness :
    (receive_step sampleStateB [("type", Json.str "error"), ("id", Json.str "1"),
      ("payload", Json.arr [Json.str "boom"])]).2 = LoopAction.next ∧
    List.lookup 1 (receive_step sampleStateB [("type", Json.str "error"),
      ("id", Json.str "1"), ("payload", Json.arr [Json.str "boom"])]).1.listeners =
      some { send_stop := true,
             exn := some (.queryError "boom" (some 1) (some [Json.str "boom"])) } := by
  have h := C7_error_list_is_operation_scoped sampleStateB rfl
    [("type", Json.str "error"), ("id", Json.str "1"),
      ("payload", Json.arr [Json.str "boom"])]
    "1" 1 (Json.str "boom") [] rfl rfl
  exact ⟨h.2.1, h.2.2.2 { send_stop := true } rfl⟩

/-- The freshly-initialized per-connection state under the graphql-ws
subprotocol, before any operation is registered. -/
def initStateB : TransportState := { subprotocol := GRAPHQLWS_SUBPROTOCOL }

/-- A concrete inbound `connection_ack` message. -/
def ackMsg : Msg := [("type", Json.str "connection_ack")]

/-- Whether `_wait_ack` returned normally having observed the ack. -/
def isAcked : WaitAckOutcome → Bool
  | .acked _ => true
  | _ => false

/-- Whether `_wait_ack` raised a `TransportProtocolError`. -/
def isRaisedProtocolError : WaitAckOutcome → Bool
  | .raised _ (.protocolError _) => true
  | _ => false

/-- C4 counterexample: the claim says the ack wait discards every
keep-alive-kind message of the active dialect, including `ping`/`pong`
under graphql-ws. On the graphql-ws state, a `connection_ack` alone is
accepted, but the same ack preceded by a `ping` is never reached:
`_wait_ack` raises a `TransportProtocolError` on the ping instead of
discarding it. -/
theorem C4_ping_before_ack_is_fatal :
    isAcked (wait_ack initStateB [ackMsg]) = true ∧
    isAcked (wait_ack initStateB [pingMsgB, ackMsg]) = false ∧
    isRaisedProtocolError (wait_ack initStateB [pingMsgB, ackMsg]) = true := by
  refine ⟨rfl, rfl, rfl⟩

/-- C4 (amended): after sending the init message, `_wait_ack` discards only
answers parsed as `ka` (the dialect A keep-alive), returns on
`connection_ack`, and raises a `TransportProtocolError` on any other
successfully parsed answer type — including graphql-ws `ping`/`pong`; a
protocol error, like expiry of `ack_timeout` (modelled by exhausting the
supplied messages without an ack), is a fatal initialization failure that
runs the non-clean shutdown and re-raises the error to the caller of
`connect`. -/
theorem C4_init_discards_only_ka (s s' : TransportState) (m : Msg) (rest : List Msg) :
    (∀ oid oer, parse_answer s m = (s', .ok ("connection_ack", oid, oer)) →
      wait_ack s (m :: rest) = .acked s') ∧
    (∀ oid oer, parse_answer s m = (s', .ok ("ka", oid, oer)) →
      wait_ack s (m :: rest) = wait_ack s' rest) ∧
    (∀ t oid oer, parse_answer s m = (s', .ok (t, oid, oer)) →
      t ≠ "connection_ack" → t ≠ "ka" →
      wait_ack s (m :: rest) =
        .raised s' (.protocolError "Websocket server did not return a connection ack")) ∧
    (∀ payload msgs s₁ em,
      wait_ack (send s (.obj [("type", Json.str "connection_init"),
          ("payload", payload)])) msgs = .raised s₁ (.protocolError em) →
      s₁.closeTask = false → s₁.websocket = true →
      (connect_init s payload msgs).2 = .error (.protocolError em) ∧
      (connect_init s payload msgs).1.websocket = false ∧
      (connect_init s payload msgs).1.waitClosed = true ∧
      (connect_init s payload msgs).1.closeException = some (.protocolError em)) ∧
    (∀ payload msgs s₁,
      wait_ack (send s (.obj [("type", Json.str "connection_init"),
          ("payload", payload)])) msgs = .pending s₁ →
      s₁.closeTask = false → s₁.websocket = true →
      (connect_init s payload msgs).2 = .error .timeoutError ∧
      (connect_init s payload msgs).1.websocket = false ∧
      (connect_init s payload msgs).1.waitClosed = true) := by
  refine ⟨?_, ?_, ?_, ?_, ?_⟩
  · intro oid oer h
    simp [wait_ack, h]
  · intro oid oer h
    simp [wait_ack, h]
  · intro t oid oer h ht1 ht2
    simp only [wait_ack, h]
    rw [if_neg ht1, if_neg ht2]
  · intro payload msgs s₁ em h hct hws
    have hci : connect_init s payload msgs =
        (fail s₁ (.protocolError em) false, .error (.protocolError em)) := by
      simp [connect_init, h]
    have hfail : fail s₁ (.protocolError em) false =
        close_coro { s₁ with closeTask := true } (.protocolError em) false := by
      simp [fail, hct, hws]
    rw [hci, hfail]
    exact ⟨rfl, rfl, rfl, rfl⟩
  · intro payload msgs s₁ h hct hws
    have hci : connect_init s payload msgs =
        (fail s₁ .timeoutError false, .error .timeoutError) := by
      simp [connect_init, h]
    have hfail : fail s₁ .timeoutError false =
        close_coro { s₁ with closeTask := true } .timeoutError false := by
      simp [fail, hct, hws]
    rw [hci, hfail]
    exact ⟨rfl, rfl, rfl⟩

/-- Witness for C4: on the fresh graphql-ws state, a parsed `ping` (a type
that is neither `connection_ack` nor `ka`) makes `_wait_ack` raise the
protocol error. -/
theorem C4_witness :
    wait_ack initStateB [pingMsgB] =
      .raised { initStateB with payloads := [("ping", Json.null)] }
        (.protocolError "Websocket server did not return a connection ack") := by
  have h := C4_init_discards_only_ka initStateB
    { initStateB with payloads := [("ping", Json.null)] } pingMsgB []
  exact h.2.2.1 "ping" none none rfl (by decide) (by decide)

end GqlAioWs
